import Mathlib

/-!
MMapper: file handle and memory mapping (POSIX build).

A shallow embedding of `filehandle.h`, `filehandle.cpp`, `mmapper.h` and
`mmapper.cpp` for the POSIX branch of the preprocessor conditionals
(`MMAPPER_API == MMAPPER_POSIX`, `file_handle_t = int`,
`INVALID_HANDLE_VALUE = -1`, `MMAPPER_PATH_SEP = '/'`).

* Pointers are natural numbers below `2 ^ 64`; `nullptr` is `0`.
* `filename_str_t` (`std::basic_string<char>`) is a list of characters.
* The operating system is an explicit `Kernel` value threaded through every
  operation.  It records every system call that was issued, the table of
  open descriptors and the table of live mappings.  What the outside world
  answers (does the path exist, which descriptor number is handed out,
  where a mapping is placed) is read from answer functions indexed by the
  number of calls issued so far, so that any sequence of answers can be
  represented.
* The build switch `MMAPPER_NO_THROW` is the Boolean argument `noThrow`
  (the shipped `mmapper_platform.h` defines it, i.e. `noThrow = true`).
  A call ends as an `Outcome`: a returned value or a thrown exception.
-/

namespace KFS

/-! ## Platform constants (`mmapper_platform.h`) -/

/-- The type `file_handle_t`: `int` on POSIX. -/
abbrev file_handle_t := Int

/-- The macro `INVALID_HANDLE_VALUE`, `(-1)` on POSIX. -/
def INVALID_HANDLE_VALUE : file_handle_t := -1

/-- The constant `c_PathSeparator`, `'/'` on POSIX. -/
def c_PathSeparator : Char := '/'

/-- The type `filename_str_t`: a string of `char`. -/
abbrev filename_str_t := List Char

/-- Number of values of a 64-bit `size_t` or pointer. -/
def WORD : Nat := 2 ^ 64

/-- The value `MAP_FAILED`, that is `(void*)-1`. -/
def MAP_FAILED : Nat := 2 ^ 64 - 1

/-! ## The operating system -/

/-- One system call as issued by the program, with what it returned. -/
inductive Call where
  | open (path : filename_str_t) (ret : Int)
  | fstat (fd : Int) (ret : Option Nat)
  | mmap (len : Nat) (fd : Int) (ret : Nat)
  | munmap (addr : Nat) (len : Nat)
  | close (fd : Int)
  deriving DecidableEq, Repr

/-- Whether a logged call is an `mmap` call. -/
def Call.isMmap : Call → Bool
  | .mmap _ _ _ => true
  | _ => false

/-- Whether a logged call is a `munmap` call. -/
def Call.isMunmap : Call → Bool
  | .munmap _ _ => true
  | _ => false

/-- A live file-backed mapping: the address `mmap` returned, the requested
length and the bytes of the file it maps. -/
structure Region where
  addr : Nat
  len : Nat
  content : List Nat
  deriving DecidableEq, Repr

/-- State and behaviour of the operating system.
`openRet t p` is the answer to `open(p)` issued as call number `t`: `none`
when the open fails, otherwise the descriptor number and the bytes of the
file.  `statErr t fd` says that `fstat` fails for a reason of its own.
`mmapRet t len fd` is where the kernel would place the mapping, `none` when
it refuses. -/
structure Kernel where
  pageSize : Nat
  openRet : Nat → filename_str_t → Option (Nat × List Nat)
  statErr : Nat → Int → Bool
  mmapRet : Nat → Nat → Int → Option Nat
  fds : List (Int × List Nat)
  maps : List Region
  calls : List Call

/-- The file a descriptor refers to, `none` for a negative or unopened
descriptor (`EBADF`). -/
def Kernel.file (k : Kernel) (fd : Int) : Option (List Nat) :=
  if fd < 0 then none else k.fds.lookup fd

/-- The call `open(path, O_RDONLY)`: returns `-1` on failure, otherwise a
non-negative descriptor that is entered in the descriptor table. -/
def sys_open (k : Kernel) (path : filename_str_t) : Kernel × Int :=
  match k.openRet k.calls.length path with
  | none => ({ k with calls := k.calls ++ [Call.open path (-1)] }, -1)
  | some (fd, content) =>
    ({ k with fds := ((fd : Int), content) :: k.fds,
              calls := k.calls ++ [Call.open path (fd : Int)] }, (fd : Int))

/-- The call `fstat(fd, &stats)`: `none` when it returns a negative value
(bad descriptor, an error of its own, or a size that does not fit `off_t`),
otherwise `st_size`. -/
def sys_fstat (k : Kernel) (fd : Int) : Kernel × Option Nat :=
  let r : Option Nat :=
    match k.file fd with
    | none => none
    | some c =>
      if k.statErr k.calls.length fd || decide (2 ^ 63 ≤ c.length) then none
      else some c.length
  ({ k with calls := k.calls ++ [Call.fstat fd r] }, r)

/-- The call `mmap(NULL, len, PROT_READ, MAP_FILE | MAP_SHARED, fd, 0)`:
returns `MAP_FAILED` for a zero length, a bad descriptor or when the kernel
refuses; a successful result is never the null address and the range fits
the address space. -/
def sys_mmap (k : Kernel) (len : Nat) (fd : Int) : Kernel × Nat :=
  let placed : Option (Nat × List Nat) :=
    if len = 0 then none
    else
      match k.file fd with
      | none => none
      | some c =>
        match k.mmapRet k.calls.length len fd with
        | none => none
        | some a =>
          if 0 < a ∧ a < MAP_FAILED ∧ a + len ≤ WORD then some (a, c) else none
  match placed with
  | none => ({ k with calls := k.calls ++ [Call.mmap len fd MAP_FAILED] }, MAP_FAILED)
  | some (a, c) =>
    ({ k with maps := { addr := a, len := len, content := c } :: k.maps,
              calls := k.calls ++ [Call.mmap len fd a] }, a)

/-- The call `munmap(addr, len)`: the mappings that start at `addr` are
removed. -/
def sys_munmap (k : Kernel) (addr len : Nat) : Kernel :=
  { k with maps := k.maps.filter (fun r => r.addr != addr),
           calls := k.calls ++ [Call.munmap addr len] }

/-- The call `close(fd)`: the descriptor leaves the descriptor table; for a
descriptor that is not open (such as `-1`) nothing changes (`EBADF`). -/
def sys_close (k : Kernel) (fd : Int) : Kernel :=
  { k with fds := if fd < 0 then k.fds else k.fds.filter (fun e => e.1 != fd),
           calls := k.calls ++ [Call.close fd] }

/-- Rounds `n` up to a whole number of pages. -/
def pageCeil (pageSize n : Nat) : Nat :=
  (n + pageSize - 1) / pageSize * pageSize

/-- A read of the byte at offset `off` of a file-backed mapping: file bytes
inside the file, zero fill in the rest of the file's last page, and a fault
(`none`) in whole pages past the end of the file or past the mapping. -/
def Region.load (pageSize : Nat) (r : Region) (off : Nat) : Option Nat :=
  if pageCeil pageSize r.len ≤ off then none
  else if h : off < r.content.length then some (r.content.get ⟨off, h⟩)
  else if off < pageCeil pageSize r.content.length then some 0
  else none

/-- A read of the byte at address `a`: served by the first live mapping
whose pages contain `a`, a fault (`none`) when there is none. -/
def Kernel.load (k : Kernel) (a : Nat) : Option Nat :=
  match k.maps.find? (fun r => decide (r.addr ≤ a ∧ a < r.addr + pageCeil k.pageSize r.len)) with
  | none => none
  | some r => r.load k.pageSize (a - r.addr)

/-! ## Exceptions -/

/-- The exceptions the library throws. -/
inductive Err where
  | logic_error (what : String)
  | runtime_error (what : String)
  deriving DecidableEq, Repr

/-- How a call ends: it returns a value or it throws. -/
inductive Outcome (α : Type) where
  | returned (value : α)
  | thrown (e : Err)
  deriving DecidableEq, Repr

/-! ## `FileHandle` (`filehandle.h`, `filehandle.cpp`) -/

/-- The class `FileHandle`: its only member is `m_fd`. -/
structure FileHandle where
  m_fd : file_handle_t := INVALID_HANDLE_VALUE
  deriving DecidableEq, Repr

/-- The member `isValid`: `return m_fd;` with return type `bool`, that is
the conversion of an `int` to `bool`. -/
def FileHandle.isValid (h : FileHandle) : Bool :=
  h.m_fd != 0

/-- The filename constructor: `m_fd = open(filename_.c_str(), O_RDONLY | O_BINARY)`. -/
def FileHandle.ofFilename (k : Kernel) (filename_ : filename_str_t) : Kernel × FileHandle :=
  let r := sys_open k filename_
  (r.1, { m_fd := r.2 })

/-- The handle constructor: stores `fd_`, and throws for the invalid handle
unless `MMAPPER_NO_THROW` is defined. -/
def FileHandle.ofHandle (noThrow : Bool) (fd_ : file_handle_t) : Outcome FileHandle :=
  if !noThrow && fd_ == INVALID_HANDLE_VALUE then
    .thrown (.logic_error "Passed invalid handle to FileHandle()")
  else .returned { m_fd := fd_ }

/-- The defaulted move constructor `FileHandle(FileHandle&&) = default`:
member-wise move, which for the `int` member is a copy.  Returns the new
object and the moved-from object. -/
def FileHandle.moveCtor (src : FileHandle) : FileHandle × FileHandle :=
  ({ m_fd := src.m_fd }, src)

/-- The defaulted move assignment `operator=(FileHandle&&) = default`:
member-wise, the `int` member of the destination is overwritten by a copy.
Returns the destination and the moved-from object. -/
def FileHandle.moveAssign (_dst src : FileHandle) : FileHandle × FileHandle :=
  ({ m_fd := src.m_fd }, src)

/-- The member `close`. -/
def FileHandle.close (noThrow : Bool) (k : Kernel) (h : FileHandle) :
    Kernel × FileHandle × Outcome Unit :=
  if !h.isValid then
    if noThrow then (k, h, .returned ())
    else (k, h, .thrown (.logic_error "Tried to close an invalid/closed FileHandle"))
  else
    -- `file_handle_t fd = std::exchange(m_fd, INVALID_HANDLE_VALUE);`
    let h1 : FileHandle := { m_fd := INVALID_HANDLE_VALUE }
    -- `::close(m_fd);`
    (sys_close k h1.m_fd, h1, .returned ())

/-- The destructor: `if (isValid()) close();`. -/
def FileHandle.dtor (noThrow : Bool) (k : Kernel) (h : FileHandle) : Kernel :=
  if h.isValid then (h.close noThrow k).1 else k

/-- The member `uncachedFileSize`. -/
def FileHandle.uncachedFileSize (noThrow : Bool) (k : Kernel) (h : FileHandle) :
    Kernel × Outcome Nat :=
  if !h.isValid then
    if noThrow then (k, .returned 0)
    else (k, .thrown (.logic_error "Tried to get size of unopened handle"))
  else
    let r := sys_fstat k h.m_fd
    match r.2 with
    | none =>
      if noThrow then (r.1, .returned 0) else (r.1, .thrown (.runtime_error "fstat failed"))
    | some st_size => (r.1, .returned (st_size % WORD))

/-! ## `MMappedFile` (`mmapper.h`, `mmapper.cpp`) -/

/-- The function `_populateFilename(lhs_, rhs_)`: starts from `lhs_`, appends
the separator when the text so far is non-empty and does not end with it,
then appends `rhs_`. -/
def _populateFilename (lhs_ rhs_ : filename_str_t) : filename_str_t :=
  let into := lhs_
  let into :=
    if !into.isEmpty && into.getLast? != some c_PathSeparator then into ++ [c_PathSeparator]
    else into
  into ++ rhs_

/-- The class `MMappedFile`: the file name, the base pointer and the end
pointer, with their default member initialisers. -/
structure MMappedFile where
  m_filename : filename_str_t := []
  m_basePtr : Nat := 0
  m_endPtr : Nat := 0
  deriving DecidableEq, Repr

/-- The accessor `isMapped`: `m_basePtr != nullptr`. -/
def MMappedFile.isMapped (m : MMappedFile) : Bool :=
  m.m_basePtr != 0

/-- The accessor `filename`. -/
def MMappedFile.filename (m : MMappedFile) : filename_str_t :=
  m.m_filename

/-- The accessor `begin<char>`. -/
def MMappedFile.begin (m : MMappedFile) : Nat :=
  m.m_basePtr

/-- The accessor `end<char>`. -/
def MMappedFile.end (m : MMappedFile) : Nat :=
  m.m_endPtr

/-- The accessor `size`: `end() - begin()` converted to `size_t`. -/
def MMappedFile.size (m : MMappedFile) : Nat :=
  (m.end + WORD - m.begin) % WORD

/-- The expression `begin()[i]` evaluated against the memory of the kernel:
the byte, or `none` when the access faults. -/
def MMappedFile.at (k : Kernel) (m : MMappedFile) (i : Nat) : Option Nat :=
  k.load ((m.begin + i) % WORD)

/-- What a member function leaves behind: the operating system, the object,
and the returned value or thrown exception. -/
structure Ret (α : Type) where
  kernel : Kernel
  self : MMappedFile
  result : Outcome α

/-- The member `unmapFile`. -/
def MMappedFile.unmapFile (noThrow : Bool) (k : Kernel) (m : MMappedFile) : Ret Bool :=
  if !m.isMapped then
    if noThrow then { kernel := k, self := m, result := .returned false }
    else { kernel := k, self := m, result := .thrown (.logic_error "File is already unmapped.") }
  else
    -- `size_t size = m_endPtr - m_basePtr + 1; munmap(m_basePtr, size);`
    let size := ((m.m_endPtr + WORD - m.m_basePtr) % WORD + 1) % WORD
    let k1 := sys_munmap k m.m_basePtr size
    { kernel := k1,
      self := { m_filename := [], m_basePtr := 0, m_endPtr := 0 },
      result := .returned true }

/-- The member `mapFile(filename_, dirname_)`; a call that leaves out
`dirname_` passes the empty string.  The local `FileHandle fh` is
destroyed on every way out of the function once it has been constructed,
also when an exception leaves the function. -/
def MMappedFile.mapFile (noThrow : Bool) (k : Kernel) (m : MMappedFile)
    (filename_ : filename_str_t) (dirname_ : filename_str_t) : Ret Bool :=
  -- `unmapFile();`
  let u := m.unmapFile noThrow k
  match u.result with
  | .thrown e => { kernel := u.kernel, self := u.self, result := .thrown e }
  | .returned _ =>
    -- `m_filename = _populateFilename(filename_, dirname_);`
    let m1 : MMappedFile := { u.self with m_filename := _populateFilename filename_ dirname_ }
    -- `FileHandle fh{ m_filename };`
    let o := FileHandle.ofFilename u.kernel m1.m_filename
    let fh := o.2
    if !fh.isValid then
      { kernel := fh.dtor noThrow o.1, self := m1, result := .returned false }
    else
      -- `auto size = fh.uncachedFileSize();`
      let s := fh.uncachedFileSize noThrow o.1
      match s.2 with
      | .thrown e => { kernel := fh.dtor noThrow s.1, self := m1, result := .thrown e }
      | .returned size =>
        if size = 0 then
          if noThrow then { kernel := fh.dtor noThrow s.1, self := m1, result := .returned false }
          else { kernel := fh.dtor noThrow s.1, self := m1,
                 result := .thrown (.runtime_error "trying to map zero-sized file") }
        else
          -- `void* const ptr = mmap(NULL, size + 1, PROT_READ, flags, fh, 0);`
          let p := sys_mmap s.1 ((size + 1) % WORD) fh.m_fd
          let ptr := p.2
          if ptr = MAP_FAILED then
            if noThrow then { kernel := fh.dtor noThrow p.1, self := m1, result := .returned false }
            else { kernel := fh.dtor noThrow p.1, self := m1,
                   result := .thrown (.runtime_error "Mapping failed") }
          else
            { kernel := fh.dtor noThrow p.1,
              self := { m1 with m_basePtr := ptr, m_endPtr := (ptr + size) % WORD },
              result := .returned true }

/-- The constructor `MMappedFile(filename_, dirname_)` on a fresh object:
`mapFile`, and unless `MMAPPER_NO_THROW` is defined a `runtime_error` when it
returned false. -/
def MMappedFile.ofFilename (noThrow : Bool) (k : Kernel)
    (filename_ : filename_str_t) (dirname_ : filename_str_t) : Ret Unit :=
  let r := MMappedFile.mapFile noThrow k {} filename_ dirname_
  match r.result with
  | .thrown e => { kernel := r.kernel, self := r.self, result := .thrown e }
  | .returned mapped =>
    if !noThrow && !mapped then
      { kernel := r.kernel, self := r.self, result := .thrown (.runtime_error "strerror(errno)") }
    else { kernel := r.kernel, self := r.self, result := .returned () }

/-- The destructor `~MMappedFile`: `unmapFile();`.  The destructor is
`noexcept`; an exception that would leave it is reported as the error. -/
def MMappedFile.dtor (noThrow : Bool) (k : Kernel) (m : MMappedFile) : Kernel × Outcome Unit :=
  let u := m.unmapFile noThrow k
  match u.result with
  | .returned _ => (u.kernel, .returned ())
  | .thrown e => (u.kernel, .thrown e)

/-- The defaulted move constructor `MMappedFile(MMappedFile&&) = default`:
member-wise move.  The two pointer members are copied; the string member is
moved, which leaves the string of the source empty.  Returns the new object
and the moved-from object. -/
def MMappedFile.moveCtor (src : MMappedFile) : MMappedFile × MMappedFile :=
  ({ m_filename := src.m_filename, m_basePtr := src.m_basePtr, m_endPtr := src.m_endPtr },
   { src with m_filename := [] })

/-! ## Sequences of calls on one instance -/

/-- A call of one of the two state-changing members of `MMappedFile`. -/
inductive Op where
  | mapFile (filename_ : filename_str_t) (dirname_ : filename_str_t)
  | unmapFile
  deriving DecidableEq, Repr

/-- One call on the instance. -/
def MMappedFile.apply (noThrow : Bool) (k : Kernel) (m : MMappedFile) : Op → Ret Bool
  | .mapFile filename_ dirname_ => m.mapFile noThrow k filename_ dirname_
  | .unmapFile => m.unmapFile noThrow k

/-- The calls of a list issued one after the other on the same instance.  A
call that throws leaves the instance as it was at the throw, and the caller
goes on with the next call. -/
def MMappedFile.run (noThrow : Bool) (k : Kernel) (m : MMappedFile) :
    List Op → Kernel × MMappedFile
  | [] => (k, m)
  | op :: ops =>
    MMappedFile.run noThrow (m.apply noThrow k op).kernel (m.apply noThrow k op).self ops

/-! ## Sample environments -/

/-- A kernel with pages of `pageSize` bytes in which every path names the
same file with bytes `content`, every `open` hands out descriptor `fd`, and
the mapping made by call number `t` is placed at address `4096 * (t + 1)`. -/
def Kernel.sample (pageSize fd : Nat) (content : List Nat) : Kernel :=
  { pageSize := pageSize,
    openRet := fun _ _ => some (fd, content),
    statErr := fun _ _ => false,
    mmapRet := fun t _ _ => some (4096 * (t + 1)),
    fds := [], maps := [], calls := [] }

/-- A kernel in which no path exists. -/
def Kernel.noFiles : Kernel :=
  { pageSize := 4096,
    openRet := fun _ _ => none,
    statErr := fun _ _ => false,
    mmapRet := fun t _ _ => some (4096 * (t + 1)),
    fds := [], maps := [], calls := [] }

/-- A kernel whose file system holds two directories `a.txt` and `b.txt`,
each with one file named `data`: `a.txt/data` has the ten bytes
`abcdefghij` and is opened as descriptor 3, `b.txt/data` has the three bytes
`xyz` and is opened as descriptor 4.  No other path exists, in particular
neither `/data/a.txt` nor `/data/b.txt`. -/
def Kernel.dataDirs : Kernel :=
  { pageSize := 4096,
    openRet := fun _ path =>
      if path = "a.txt//data".toList then
        some (3, [97, 98, 99, 100, 101, 102, 103, 104, 105, 106])
      else if path = "b.txt//data".toList then some (4, [120, 121, 122])
      else none,
    statErr := fun _ _ => false,
    mmapRet := fun t _ _ => some (4096 * (t + 1)),
    fds := [], maps := [], calls := [] }

/-- The ten bytes of the text `abcdefghij`. -/
def abcdefghij : List Nat := [97, 98, 99, 100, 101, 102, 103, 104, 105, 106]


/-! ## System call lemmas -/

theorem sys_open_calls (k : Kernel) (q : filename_str_t) :
    (sys_open k q).1.calls = k.calls ++ [Call.open q (sys_open k q).2] := by
  unfold sys_open; split <;> simp

theorem sys_open_ret (k : Kernel) (q : filename_str_t) :
    (sys_open k q).2 = -1 ∨ 0 ≤ (sys_open k q).2 := by
  unfold sys_open; split <;> simp

theorem sys_open_none (k : Kernel) (q : filename_str_t)
    (h : k.openRet k.calls.length q = none) : (sys_open k q).2 = -1 := by
  unfold sys_open; simp [h]

theorem sys_open_some (k : Kernel) (q : filename_str_t) (fd : Nat) (c : List Nat)
    (h : k.openRet k.calls.length q = some (fd, c)) :
    (sys_open k q).2 = fd ∧ (sys_open k q).1.file fd = some c := by
  unfold sys_open; simp [h, Kernel.file, List.lookup]

theorem sys_open_oracles (k : Kernel) (q : filename_str_t) :
    (sys_open k q).1.openRet = k.openRet ∧ (sys_open k q).1.statErr = k.statErr ∧
    (sys_open k q).1.mmapRet = k.mmapRet ∧ (sys_open k q).1.pageSize = k.pageSize ∧
    (sys_open k q).1.maps = k.maps := by
  unfold sys_open; split <;> simp

theorem sys_fstat_calls (k : Kernel) (fd : Int) :
    (sys_fstat k fd).1.calls = k.calls ++ [Call.fstat fd (sys_fstat k fd).2] := by
  simp [sys_fstat]

theorem sys_fstat_lt (k : Kernel) (fd : Int) (n : Nat) (h : (sys_fstat k fd).2 = some n) :
    n < 2 ^ 63 ∧ 0 ≤ fd := by
  unfold sys_fstat Kernel.file at h
  simp only at h
  split at h
  · simp at h
  · rename_i c hc
    split at hc
    · simp at hc
    · split at h
      · simp at h
      · rename_i hn
        simp at h hn
        omega

theorem sys_fstat_file (k : Kernel) (fd : Int) (c : List Nat) (h : k.file fd = some c) :
    (sys_fstat k fd).2 = none ∨ (sys_fstat k fd).2 = some c.length := by
  unfold sys_fstat
  simp only [h]
  split <;> simp

theorem sys_fstat_oracles (k : Kernel) (fd : Int) :
    (sys_fstat k fd).1.openRet = k.openRet ∧ (sys_fstat k fd).1.statErr = k.statErr ∧
    (sys_fstat k fd).1.mmapRet = k.mmapRet ∧ (sys_fstat k fd).1.pageSize = k.pageSize ∧
    (sys_fstat k fd).1.maps = k.maps ∧ (sys_fstat k fd).1.fds = k.fds := by
  simp [sys_fstat]

theorem sys_mmap_calls (k : Kernel) (len : Nat) (fd : Int) :
    (sys_mmap k len fd).1.calls = k.calls ++ [Call.mmap len fd (sys_mmap k len fd).2] := by
  unfold sys_mmap; simp only; split <;> simp

theorem sys_mmap_ok (k : Kernel) (len : Nat) (fd : Int) (h : (sys_mmap k len fd).2 ≠ MAP_FAILED) :
    0 < (sys_mmap k len fd).2 ∧ (sys_mmap k len fd).2 + len ≤ WORD := by
  unfold sys_mmap at h ⊢
  simp only at h ⊢
  split
  · rename_i hp; simp [hp] at h
  · rename_i a c hp
    simp only
    split at hp
    · simp at hp
    · split at hp
      · simp at hp
      · split at hp
        · simp at hp
        · split at hp
          · rename_i hh
            simp at hp
            obtain ⟨rfl, rfl⟩ := hp
            omega
          · simp at hp

theorem sys_mmap_none (k : Kernel) (len : Nat) (fd : Int)
    (h : k.mmapRet k.calls.length len fd = none) : (sys_mmap k len fd).2 = MAP_FAILED := by
  unfold sys_mmap
  simp only [h]
  split
  · rfl
  · rename_i a c hp
    split at hp
    · simp at hp
    · split at hp <;> simp at hp

theorem sys_close_calls (k : Kernel) (fd : Int) :
    (sys_close k fd).calls = k.calls ++ [Call.close fd] := by
  simp [sys_close]

theorem sys_munmap_calls (k : Kernel) (a len : Nat) :
    (sys_munmap k a len).calls = k.calls ++ [Call.munmap a len] := by
  simp [sys_munmap]

theorem sys_munmap_oracles (k : Kernel) (a len : Nat) :
    (sys_munmap k a len).openRet = k.openRet ∧ (sys_munmap k a len).statErr = k.statErr ∧
    (sys_munmap k a len).mmapRet = k.mmapRet ∧ (sys_munmap k a len).pageSize = k.pageSize ∧
    (sys_munmap k a len).fds = k.fds := by
  simp [sys_munmap]

/-! ## `FileHandle` lemmas -/

theorem FileHandle.dtor_eq (noThrow : Bool) (k : Kernel) (h : FileHandle) :
    h.dtor noThrow k = if h.m_fd = 0 then k else sys_close k (-1) := by
  unfold FileHandle.dtor FileHandle.close FileHandle.isValid
  by_cases h0 : h.m_fd = 0 <;> simp [h0, INVALID_HANDLE_VALUE]

theorem sys_close_neg (k : Kernel) :
    (sys_close k (-1)).fds = k.fds ∧ (sys_close k (-1)).maps = k.maps ∧
    (sys_close k (-1)).pageSize = k.pageSize ∧ (sys_close k (-1)).openRet = k.openRet ∧
    (sys_close k (-1)).statErr = k.statErr ∧ (sys_close k (-1)).mmapRet = k.mmapRet := by
  simp [sys_close]

/-! ## `MMappedFile` lemmas -/

theorem unmapFile_mapped (noThrow : Bool) (k : Kernel) (m : MMappedFile) (h : m.isMapped = true) :
    (m.unmapFile noThrow k).kernel
        = sys_munmap k m.m_basePtr (((m.m_endPtr + WORD - m.m_basePtr) % WORD + 1) % WORD) ∧
    (m.unmapFile noThrow k).self = { m_filename := [], m_basePtr := 0, m_endPtr := 0 } ∧
    (m.unmapFile noThrow k).result = .returned true := by
  simp [MMappedFile.unmapFile, h]

theorem unmapFile_unmapped (noThrow : Bool) (k : Kernel) (m : MMappedFile) (h : m.isMapped = false) :
    (m.unmapFile noThrow k).kernel = k ∧ (m.unmapFile noThrow k).self = m ∧
    (m.unmapFile noThrow k).result
      = if noThrow then .returned false else .thrown (.logic_error "File is already unmapped.") := by
  cases noThrow <;> simp [MMappedFile.unmapFile, h]

theorem unmapFile_base (noThrow : Bool) (k : Kernel) (m : MMappedFile) :
    (m.unmapFile noThrow k).self.m_basePtr = 0 := by
  cases h : m.isMapped
  · rw [(unmapFile_unmapped noThrow k m h).2.1]
    simpa [MMappedFile.isMapped] using h
  · rw [(unmapFile_mapped noThrow k m h).2.1]

theorem uncachedFileSize_eq (noThrow : Bool) (k : Kernel) (h : FileHandle) (hv : h.m_fd ≠ 0) :
    h.uncachedFileSize noThrow k =
      match (sys_fstat k h.m_fd).2 with
      | none =>
        ((sys_fstat k h.m_fd).1,
          if noThrow then .returned 0 else .thrown (.runtime_error "fstat failed"))
      | some n => ((sys_fstat k h.m_fd).1, .returned (n % WORD)) := by
  have hb : (h.m_fd != 0) = true := by simpa using hv
  unfold FileHandle.uncachedFileSize FileHandle.isValid
  simp only [hb, Bool.not_true, Bool.false_eq_true, if_false]
  split <;> cases noThrow <;> simp

/-- Normal form of `mapFile`: one line per way out of the function. -/
theorem mapFile_eq (noThrow : Bool) (k : Kernel) (m : MMappedFile) (p d : filename_str_t) :
    m.mapFile noThrow k p d =
      match (m.unmapFile noThrow k).result with
      | .thrown e =>
        { kernel := (m.unmapFile noThrow k).kernel, self := (m.unmapFile noThrow k).self,
          result := .thrown e }
      | .returned _ =>
        if (sys_open (m.unmapFile noThrow k).kernel (_populateFilename p d)).2 = 0 then
          { kernel := (sys_open (m.unmapFile noThrow k).kernel (_populateFilename p d)).1,
            self := { (m.unmapFile noThrow k).self with m_filename := _populateFilename p d },
            result := .returned false }
        else
          match (sys_fstat (sys_open (m.unmapFile noThrow k).kernel (_populateFilename p d)).1
                  (sys_open (m.unmapFile noThrow k).kernel (_populateFilename p d)).2).2 with
          | none =>
            { kernel := sys_close
                (sys_fstat (sys_open (m.unmapFile noThrow k).kernel (_populateFilename p d)).1
                  (sys_open (m.unmapFile noThrow k).kernel (_populateFilename p d)).2).1 (-1),
              self := { (m.unmapFile noThrow k).self with m_filename := _populateFilename p d },
              result := if noThrow then .returned false
                        else .thrown (.runtime_error "fstat failed") }
          | some n =>
            if n % WORD = 0 then
              { kernel := sys_close
                  (sys_fstat (sys_open (m.unmapFile noThrow k).kernel (_populateFilename p d)).1
                    (sys_open (m.unmapFile noThrow k).kernel (_populateFilename p d)).2).1 (-1),
                self := { (m.unmapFile noThrow k).self with m_filename := _populateFilename p d },
                result := if noThrow then .returned false
                          else .thrown (.runtime_error "trying to map zero-sized file") }
            else if (sys_mmap
                  (sys_fstat (sys_open (m.unmapFile noThrow k).kernel (_populateFilename p d)).1
                    (sys_open (m.unmapFile noThrow k).kernel (_populateFilename p d)).2).1
                  ((n % WORD + 1) % WORD)
                  (sys_open (m.unmapFile noThrow k).kernel (_populateFilename p d)).2).2
                = MAP_FAILED then
              { kernel := sys_close (sys_mmap
                  (sys_fstat (sys_open (m.unmapFile noThrow k).kernel (_populateFilename p d)).1
                    (sys_open (m.unmapFile noThrow k).kernel (_populateFilename p d)).2).1
                  ((n % WORD + 1) % WORD)
                  (sys_open (m.unmapFile noThrow k).kernel (_populateFilename p d)).2).1 (-1),
                self := { (m.unmapFile noThrow k).self with m_filename := _populateFilename p d },
                result := if noThrow then .returned false
                          else .thrown (.runtime_error "Mapping failed") }
            else
              { kernel := sys_close (sys_mmap
                  (sys_fstat (sys_open (m.unmapFile noThrow k).kernel (_populateFilename p d)).1
                    (sys_open (m.unmapFile noThrow k).kernel (_populateFilename p d)).2).1
                  ((n % WORD + 1) % WORD)
                  (sys_open (m.unmapFile noThrow k).kernel (_populateFilename p d)).2).1 (-1),
                self :=
                  { m_filename := _populateFilename p d,
                    m_basePtr := (sys_mmap
                      (sys_fstat (sys_open (m.unmapFile noThrow k).kernel (_populateFilename p d)).1
                        (sys_open (m.unmapFile noThrow k).kernel (_populateFilename p d)).2).1
                      ((n % WORD + 1) % WORD)
                      (sys_open (m.unmapFile noThrow k).kernel (_populateFilename p d)).2).2,
                    m_endPtr := ((sys_mmap
                      (sys_fstat (sys_open (m.unmapFile noThrow k).kernel (_populateFilename p d)).1
                        (sys_open (m.unmapFile noThrow k).kernel (_populateFilename p d)).2).1
                      ((n % WORD + 1) % WORD)
                      (sys_open (m.unmapFile noThrow k).kernel (_populateFilename p d)).2).2
                      + n % WORD) % WORD },
                result := .returned true } := by
  unfold MMappedFile.mapFile
  generalize m.unmapFile noThrow k = u
  generalize _populateFilename p d = q
  simp only [FileHandle.ofFilename, FileHandle.dtor_eq]
  generalize sys_open u.kernel q = o
  cases u.result with
  | thrown e => rfl
  | returned b =>
    simp only
    by_cases hv : o.2 = 0
    · simp [hv, FileHandle.isValid]
    · have hsz := uncachedFileSize_eq noThrow o.1 { m_fd := o.2 } hv
      have hb : (o.2 != 0) = true := by simpa using hv
      simp only at hsz
      simp only [hv, FileHandle.isValid, hb, Bool.not_true, Bool.false_eq_true, if_false, hsz]
      generalize sys_fstat o.1 o.2 = s
      cases s.2 with
      | none => cases noThrow <;> simp
      | some n =>
        simp only
        by_cases hn : n % WORD = 0
        · cases noThrow <;> simp [hn]
        · simp only [hn, if_false]
          generalize sys_mmap s.1 ((n % WORD + 1) % WORD) o.2 = pm
          by_cases hp : pm.2 = MAP_FAILED
          · cases noThrow <;> simp [hp]
          · simp [hp]

theorem mapFile_true (noThrow : Bool) (k : Kernel) (m : MMappedFile) (p d : filename_str_t)
    (h : (m.mapFile noThrow k p d).result = .returned true) :
    ∃ (fd : Int) (n a : Nat),
      (m.mapFile noThrow k p d).kernel.calls
        = (m.unmapFile noThrow k).kernel.calls ++
            [Call.open (_populateFilename p d) fd, Call.fstat fd (some n),
             Call.mmap (n + 1) fd a, Call.close (-1)] ∧
      (m.mapFile noThrow k p d).self
        = { m_filename := _populateFilename p d, m_basePtr := a, m_endPtr := a + n } ∧
      0 < n ∧ 0 < a ∧ a + n + 1 ≤ WORD ∧ 0 < fd := by
  have e := mapFile_eq noThrow k m p d
  generalize m.mapFile noThrow k p d = r at e h ⊢
  generalize m.unmapFile noThrow k = u at e ⊢
  generalize _populateFilename p d = q at e ⊢
  have hoc := sys_open_calls u.kernel q
  generalize sys_open u.kernel q = o at e hoc
  have hsc := sys_fstat_calls o.1 o.2
  have hsl := sys_fstat_lt o.1 o.2
  generalize sys_fstat o.1 o.2 = s at e hsc hsl
  subst e
  cases hur : u.result with
  | thrown e => simp [hur] at h
  | returned b =>
    simp only [hur] at h ⊢
    by_cases hv : o.2 = 0
    · simp [hv] at h
    · simp only [hv, if_false] at h ⊢
      cases hs2 : s.2 with
      | none => cases noThrow <;> simp [hs2] at h
      | some n =>
        simp only [hs2] at h ⊢
        obtain ⟨hn63, hfd⟩ := hsl n hs2
        have hnW : n % WORD = n := Nat.mod_eq_of_lt (by unfold WORD; omega)
        rw [hnW] at h ⊢
        have hn1 : (n + 1) % WORD = n + 1 := Nat.mod_eq_of_lt (by unfold WORD; omega)
        rw [hn1] at h ⊢
        by_cases hn : n = 0
        · cases noThrow <;> simp [hn] at h
        · simp only [hn, if_false] at h ⊢
          have hpc := sys_mmap_calls s.1 (n + 1) o.2
          have hpo := sys_mmap_ok s.1 (n + 1) o.2
          generalize sys_mmap s.1 (n + 1) o.2 = pm at h hpc hpo ⊢
          by_cases hp : pm.2 = MAP_FAILED
          · cases noThrow <;> simp [hp] at h
          · simp only [hp, if_false] at h ⊢
            obtain ⟨ha, hal⟩ := hpo hp
            refine ⟨o.2, n, pm.2, ?_, ?_, by omega, ha, by omega, by omega⟩
            · rw [sys_close_calls, hpc, hsc, hoc, hs2]
              simp
            · have : (pm.2 + n) % WORD = pm.2 + n := Nat.mod_eq_of_lt (by omega)
              rw [this]

theorem unmapFile_end (noThrow : Bool) (k : Kernel) (m : MMappedFile)
    (hm : m.isMapped = false → m.m_endPtr = 0) :
    (m.unmapFile noThrow k).self.m_endPtr = 0 := by
  cases h : m.isMapped
  · rw [(unmapFile_unmapped noThrow k m h).2.1]
    exact hm h
  · rw [(unmapFile_mapped noThrow k m h).2.1]

theorem unmapFile_oracles (noThrow : Bool) (k : Kernel) (m : MMappedFile) :
    (m.unmapFile noThrow k).kernel.openRet = k.openRet ∧
    (m.unmapFile noThrow k).kernel.mmapRet = k.mmapRet ∧
    (m.unmapFile noThrow k).kernel.pageSize = k.pageSize := by
  cases h : m.isMapped
  · rw [(unmapFile_unmapped noThrow k m h).1]
    exact ⟨rfl, rfl, rfl⟩
  · rw [(unmapFile_mapped noThrow k m h).1]
    simp [sys_munmap]

theorem unmapFile_calls (noThrow : Bool) (k : Kernel) (m : MMappedFile) :
    (m.unmapFile noThrow k).kernel.calls
      = k.calls ++
          (if m.isMapped then
            [Call.munmap m.m_basePtr (((m.m_endPtr + WORD - m.m_basePtr) % WORD + 1) % WORD)]
           else []) := by
  cases h : m.isMapped
  · rw [(unmapFile_unmapped noThrow k m h).1]; simp
  · rw [(unmapFile_mapped noThrow k m h).1]; simp [sys_munmap]

theorem unmapFile_noThrow (k : Kernel) (m : MMappedFile) :
    ∃ b, (m.unmapFile true k).result = .returned b := by
  cases h : m.isMapped
  · exact ⟨false, by rw [(unmapFile_unmapped true k m h).2.2]; rfl⟩
  · exact ⟨true, (unmapFile_mapped true k m h).2.2⟩

theorem sys_open_cases (k : Kernel) (q : filename_str_t) :
    (k.openRet k.calls.length q = none ∧ (sys_open k q).2 = -1) ∨
    ∃ (fd : Nat) (c : List Nat), k.openRet k.calls.length q = some (fd, c) ∧
      (sys_open k q).2 = fd ∧ (sys_open k q).1.file fd = some c := by
  cases h : k.openRet k.calls.length q with
  | none => exact Or.inl ⟨rfl, sys_open_none k q h⟩
  | some fc =>
    obtain ⟨fd, c⟩ := fc
    exact Or.inr ⟨fd, c, rfl, sys_open_some k q fd c h⟩

theorem sys_fstat_neg (k : Kernel) : (sys_fstat k (-1)).2 = none := by
  cases h : (sys_fstat k (-1)).2 with
  | none => rfl
  | some n => have := (sys_fstat_lt k (-1) n h).2; omega


/-! ## Paging lemmas -/

theorem le_pageCeil (ps n : Nat) (hps : 0 < ps) : n ≤ pageCeil ps n := by
  unfold pageCeil
  have h1 := Nat.div_add_mod (n + ps - 1) ps
  have h2 := Nat.mod_lt (n + ps - 1) hps
  rw [Nat.mul_comm] at h1
  omega

theorem pageCeil_of_mod (ps n : Nat) (hps : 0 < ps) (h : n % ps = 0) : pageCeil ps n = n := by
  unfold pageCeil
  obtain ⟨j, rfl⟩ := Nat.dvd_of_mod_eq_zero h
  have : ps * j + ps - 1 = ps - 1 + ps * j := by omega
  rw [this, Nat.add_mul_div_left _ _ hps, Nat.div_eq_of_lt (by omega), Nat.zero_add,
    Nat.mul_comm]

theorem sys_fstat_some (k : Kernel) (fd : Int) (n : Nat) (h : (sys_fstat k fd).2 = some n) :
    ∃ c, k.file fd = some c ∧ c.length = n := by
  unfold sys_fstat at h
  simp only at h
  split at h
  · cases h
  · rename_i c hc
    split at h
    · cases h
    · exact ⟨c, hc, by simpa using h⟩

theorem sys_fstat_keeps_file (k : Kernel) (fd fd2 : Int) :
    (sys_fstat k fd).1.file fd2 = k.file fd2 := by
  simp [sys_fstat, Kernel.file]

theorem sys_mmap_region (k : Kernel) (len : Nat) (fd : Int)
    (h : (sys_mmap k len fd).2 ≠ MAP_FAILED) :
    ∃ c, k.file fd = some c ∧
      (sys_mmap k len fd).1.maps
        = { addr := (sys_mmap k len fd).2, len := len, content := c } :: k.maps ∧
      (sys_mmap k len fd).1.pageSize = k.pageSize := by
  unfold sys_mmap at h ⊢
  simp only at h ⊢
  split
  · rename_i hp; simp [hp] at h
  · rename_i a c hp
    simp only
    split at hp
    · cases hp
    · split at hp
      · cases hp
      · rename_i c2 hc2
        split at hp
        · cases hp
        · split at hp
          · simp only [Option.some.injEq, Prod.mk.injEq] at hp
            obtain ⟨rfl, rfl⟩ := hp
            exact ⟨c2, hc2, by simp, by simp⟩
          · cases hp

/-- After a successful `mapFile` the newest mapping of the kernel is the one
the instance describes: it starts at `begin()`, was requested with
`size() + 1` bytes and maps a file of `size()` bytes. -/
theorem mapFile_true_region (noThrow : Bool) (k : Kernel) (m : MMappedFile) (p d : filename_str_t)
    (h : (m.mapFile noThrow k p d).result = .returned true) :
    ∃ (n a : Nat) (c : List Nat) (rest : List Region),
      (m.mapFile noThrow k p d).kernel.maps = { addr := a, len := n + 1, content := c } :: rest ∧
      c.length = n ∧
      (m.mapFile noThrow k p d).kernel.pageSize = k.pageSize ∧
      (m.mapFile noThrow k p d).self
        = { m_filename := _populateFilename p d, m_basePtr := a, m_endPtr := a + n } ∧
      0 < n ∧ 0 < a ∧ a + n + 1 ≤ WORD := by
  have e := mapFile_eq noThrow k m p d
  obtain ⟨-, -, hups⟩ := unmapFile_oracles noThrow k m
  generalize m.mapFile noThrow k p d = r at e h ⊢
  generalize m.unmapFile noThrow k = u at e hups
  generalize _populateFilename p d = q at e ⊢
  obtain ⟨-, -, -, hops, -⟩ := sys_open_oracles u.kernel q
  generalize sys_open u.kernel q = o at e hops
  have hsl := sys_fstat_lt o.1 o.2
  have hss := sys_fstat_some o.1 o.2
  have hsk := sys_fstat_keeps_file o.1 o.2 o.2
  obtain ⟨-, -, -, hsps, -, -⟩ := sys_fstat_oracles o.1 o.2
  generalize sys_fstat o.1 o.2 = s at e hsl hss hsk hsps
  subst e
  cases hur : u.result with
  | thrown e => simp [hur] at h
  | returned b =>
    simp only [hur] at h ⊢
    by_cases hv : o.2 = 0
    · simp [hv] at h
    · simp only [hv, if_false] at h ⊢
      cases hs2 : s.2 with
      | none => cases noThrow <;> simp [hs2] at h
      | some n =>
        simp only [hs2] at h ⊢
        obtain ⟨hn63, hfd⟩ := hsl n hs2
        obtain ⟨c, hfile, hlen⟩ := hss n hs2
        have hnW : n % WORD = n := Nat.mod_eq_of_lt (by unfold WORD; omega)
        rw [hnW] at h ⊢
        have hn1 : (n + 1) % WORD = n + 1 := Nat.mod_eq_of_lt (by unfold WORD; omega)
        rw [hn1] at h ⊢
        by_cases hn : n = 0
        · cases noThrow <;> simp [hn] at h
        · simp only [hn, if_false] at h ⊢
          have hpo := sys_mmap_ok s.1 (n + 1) o.2
          have hpr := sys_mmap_region s.1 (n + 1) o.2
          generalize sys_mmap s.1 (n + 1) o.2 = pm at h hpo hpr ⊢
          by_cases hp : pm.2 = MAP_FAILED
          · cases noThrow <;> simp [hp] at h
          · simp only [hp, if_false] at h ⊢
            obtain ⟨ha, hal⟩ := hpo hp
            obtain ⟨c2, hfile2, hmaps, hpps⟩ := hpr hp
            rw [hsk, hfile] at hfile2
            cases hfile2
            refine ⟨n, pm.2, c, s.1.maps, ?_, hlen, ?_, ?_, by omega, ha, by omega⟩
            · rw [(sys_close_neg pm.1).2.1, hmaps]
            · rw [(sys_close_neg pm.1).2.2.1, hpps, hsps, hops, hups]
            · have : (pm.2 + n) % WORD = pm.2 + n := Nat.mod_eq_of_lt (by omega)
              rw [this]

/-- On a successful mapping whose size is a whole number of pages, the read
of `begin()[size()]` faults. -/
theorem at_size_faults (noThrow : Bool) (k : Kernel) (m : MMappedFile) (p d : filename_str_t)
    (h : (m.mapFile noThrow k p d).result = .returned true)
    (hps : 0 < k.pageSize)
    (hdiv : (m.mapFile noThrow k p d).self.size % k.pageSize = 0) :
    (m.mapFile noThrow k p d).self.at (m.mapFile noThrow k p d).kernel
      (m.mapFile noThrow k p d).self.size = none := by
  obtain ⟨n, a, c, rest, hmaps, hlen, hpage, hself, hn, ha, hal⟩ :=
    mapFile_true_region noThrow k m p d h
  have hsize : (m.mapFile noThrow k p d).self.size = n := by
    rw [hself]
    simp only [MMappedFile.size, MMappedFile.begin, MMappedFile.end]
    have : a + n + WORD - a = n + WORD := by omega
    rw [this, Nat.add_mod_right]
    exact Nat.mod_eq_of_lt (by omega)
  rw [hsize] at hdiv ⊢
  unfold MMappedFile.at Kernel.load
  rw [hmaps, hpage, hself]
  simp only [MMappedFile.begin]
  have hw : (a + n) % WORD = a + n := Nat.mod_eq_of_lt (by omega)
  have hge := le_pageCeil k.pageSize (n + 1) hps
  simp only [hw]
  rw [List.find?_cons_of_pos]
  · simp only [Region.load, Nat.add_sub_cancel_left, hlen, Nat.lt_irrefl,
      pageCeil_of_mod k.pageSize n hps hdiv]
    simp
  · simp
    omega

theorem sample_maps (ps fd : Nat) (c : List Nat) (p d : filename_str_t)
    (hfd : 0 < fd) (hc0 : 0 < c.length) (hc : c.length < 2 ^ 32) :
    (MMappedFile.mapFile true (Kernel.sample ps fd c) {} p d).result = .returned true ∧
    (MMappedFile.mapFile true (Kernel.sample ps fd c) {} p d).self.size = c.length := by
  have hfd0 : (fd : Int) ≠ 0 := by omega
  have hfdn : ¬ ((fd : Int) < 0) := by omega
  have h63 : ¬ (9223372036854775808 ≤ c.length) := by omega
  have hmf : 12288 < MAP_FAILED := by unfold MAP_FAILED; omega
  have hne : ¬ (12288 = MAP_FAILED) := by unfold MAP_FAILED; omega
  have hle : 12288 + (c.length + 1) ≤ WORD := by unfold WORD; omega
  have hcW : c.length % WORD = c.length := Nat.mod_eq_of_lt (by unfold WORD; omega)
  have hc1 : (c.length + 1) % WORD = c.length + 1 := Nat.mod_eq_of_lt (by unfold WORD; omega)
  have hc00 : c.length ≠ 0 := by omega
  rw [mapFile_eq]
  simp [MMappedFile.unmapFile, MMappedFile.isMapped, sys_open, sys_fstat, sys_mmap,
    Kernel.sample, Kernel.file, List.lookup, hfd0, hfdn, h63, hcW, hc1, hc00, hmf, hne, hle,
    MMappedFile.size, MMappedFile.begin, MMappedFile.end]
  unfold WORD at *
  omega

/-! ## Call sequences -/

/-- On a valid handle `close()` does not throw, under either policy: the
check in the destructor of `FileHandle` keeps it from throwing. -/
theorem FileHandle.close_of_valid (noThrow : Bool) (k : Kernel) (h : FileHandle)
    (hv : h.isValid = true) : (h.close noThrow k).2.2 = .returned () := by
  simp [FileHandle.close, hv]

/-- Unless `mapFile` returns true, it leaves the pointers as the `unmapFile`
call at its start left them. -/
theorem mapFile_pointers_of_not_true (noThrow : Bool) (k : Kernel) (m : MMappedFile)
    (p d : filename_str_t) (h : (m.mapFile noThrow k p d).result ≠ .returned true) :
    (m.mapFile noThrow k p d).self.m_basePtr = (m.unmapFile noThrow k).self.m_basePtr ∧
    (m.mapFile noThrow k p d).self.m_endPtr = (m.unmapFile noThrow k).self.m_endPtr := by
  have e := mapFile_eq noThrow k m p d
  generalize m.mapFile noThrow k p d = r at e h ⊢
  generalize m.unmapFile noThrow k = u at e ⊢
  generalize _populateFilename p d = q at e
  generalize sys_open u.kernel q = o at e
  generalize sys_fstat o.1 o.2 = s at e
  subst e
  cases hur : u.result with
  | thrown e => simp only [hur]; exact ⟨trivial, trivial⟩
  | returned b =>
    simp only [hur] at h ⊢
    by_cases hv : o.2 = 0
    · simp only [hv, if_true]; exact ⟨trivial, trivial⟩
    · simp only [hv, if_false] at h ⊢
      cases hs2 : s.2 with
      | none => simp only [hs2]; exact ⟨trivial, trivial⟩
      | some n =>
        simp only [hs2] at h ⊢
        by_cases hn : n % WORD = 0
        · simp only [hn, if_true]; exact ⟨trivial, trivial⟩
        · simp only [hn, if_false] at h ⊢
          by_cases hp : (sys_mmap s.1 ((n % WORD + 1) % WORD) o.2).2 = MAP_FAILED
          · simp only [hp, if_true]; exact ⟨trivial, trivial⟩
          · simp only [hp, if_false] at h
            exact absurd rfl h

/-- After `mapFile`, `isMapped()` says whether the call returned true. -/
theorem mapFile_isMapped (noThrow : Bool) (k : Kernel) (m : MMappedFile) (p d : filename_str_t) :
    (m.mapFile noThrow k p d).self.isMapped
      = decide ((m.mapFile noThrow k p d).result = .returned true) := by
  by_cases h : (m.mapFile noThrow k p d).result = .returned true
  · obtain ⟨fd, n, a, -, hself, -, ha, -, -⟩ := mapFile_true noThrow k m p d h
    rw [hself]
    simp [MMappedFile.isMapped, h]
    omega
  · obtain ⟨hb, -⟩ := mapFile_pointers_of_not_true noThrow k m p d h
    simp [MMappedFile.isMapped, h, hb, unmapFile_base]

theorem unmapFile_isMapped (noThrow : Bool) (k : Kernel) (m : MMappedFile) :
    (m.unmapFile noThrow k).self.isMapped = false := by
  simp [MMappedFile.isMapped, unmapFile_base]

theorem run_unmapFile_only (noThrow : Bool) (j : Nat) (k : Kernel) (m : MMappedFile)
    (h : m.isMapped = false) :
    (MMappedFile.run noThrow k m (List.replicate j Op.unmapFile)).2 = m := by
  induction j generalizing k with
  | zero => rfl
  | succ j ih =>
    simp only [List.replicate_succ, MMappedFile.run, MMappedFile.apply]
    rw [(unmapFile_unmapped noThrow k m h).1, (unmapFile_unmapped noThrow k m h).2.1]
    exact ih k

/-- The pointer invariant, with the bound that keeps `end` inside the address
space, is kept by every call. -/
theorem apply_pointers (noThrow : Bool) (k : Kernel) (m : MMappedFile) (op : Op)
    (h : (m.m_basePtr = 0 ∧ m.m_endPtr = 0) ∨
         (0 < m.m_basePtr ∧ m.m_basePtr ≤ m.m_endPtr ∧ m.m_endPtr < WORD)) :
    ((m.apply noThrow k op).self.m_basePtr = 0 ∧ (m.apply noThrow k op).self.m_endPtr = 0) ∨
    (0 < (m.apply noThrow k op).self.m_basePtr ∧
      (m.apply noThrow k op).self.m_basePtr ≤ (m.apply noThrow k op).self.m_endPtr ∧
      (m.apply noThrow k op).self.m_endPtr < WORD) := by
  have hu : (m.unmapFile noThrow k).self.m_basePtr = 0 ∧
      (m.unmapFile noThrow k).self.m_endPtr = 0 := by
    refine ⟨unmapFile_base noThrow k m, unmapFile_end noThrow k m ?_⟩
    intro hm
    rcases h with h | h
    · exact h.2
    · simp [MMappedFile.isMapped] at hm
      omega
  cases op with
  | unmapFile => exact Or.inl hu
  | mapFile f d =>
    simp only [MMappedFile.apply]
    by_cases ht : (m.mapFile noThrow k f d).result = .returned true
    · obtain ⟨fd, n, a, -, hself, -, ha, hal, -⟩ := mapFile_true noThrow k m f d ht
      rw [hself]
      right
      simp only
      omega
    · obtain ⟨hb, he⟩ := mapFile_pointers_of_not_true noThrow k m f d ht
      rw [hb, he]
      exact Or.inl hu

theorem run_pointers (noThrow : Bool) (ops : List Op) (k : Kernel) (m : MMappedFile)
    (h : (m.m_basePtr = 0 ∧ m.m_endPtr = 0) ∨
         (0 < m.m_basePtr ∧ m.m_basePtr ≤ m.m_endPtr ∧ m.m_endPtr < WORD)) :
    ((MMappedFile.run noThrow k m ops).2.m_basePtr = 0 ∧
      (MMappedFile.run noThrow k m ops).2.m_endPtr = 0) ∨
    (0 < (MMappedFile.run noThrow k m ops).2.m_basePtr ∧
      (MMappedFile.run noThrow k m ops).2.m_basePtr ≤ (MMappedFile.run noThrow k m ops).2.m_endPtr ∧
      (MMappedFile.run noThrow k m ops).2.m_endPtr < WORD) := by
  induction ops generalizing k m with
  | nil => exact h
  | cons op ops ih =>
    simp only [MMappedFile.run]
    exact ih _ _ (apply_pointers noThrow k m op h)

/-- What a second successful `mapFile` does to the first mapping: when
`mapFile` returns true twice in a row on the same instance, the second run
issues exactly these calls, in this order: one `munmap` on the base pointer
of the first mapping with the first `size()` plus one as length, then `open`
of `_populateFilename p2 d2`, `fstat`, the `mmap` that creates the second
mapping, and the close of the transient handle.  Afterwards `filename()` is
the path handed to that `open`, `begin()` is the address the second `mmap`
returned, `size()` is the size `fstat` reported and `end()` is
`begin() + size()`. -/
theorem mapFile_twice_replaces (noThrow : Bool) (k : Kernel) (m : MMappedFile)
    (p1 d1 p2 d2 : filename_str_t)
    (h1 : (m.mapFile noThrow k p1 d1).result = .returned true)
    (h2 : ((m.mapFile noThrow k p1 d1).self.mapFile noThrow
            (m.mapFile noThrow k p1 d1).kernel p2 d2).result = .returned true) :
    ∃ (fd : Int) (n a len : Nat),
      ((m.mapFile noThrow k p1 d1).self.mapFile noThrow
            (m.mapFile noThrow k p1 d1).kernel p2 d2).kernel.calls
        = (m.mapFile noThrow k p1 d1).kernel.calls ++
            [Call.munmap (m.mapFile noThrow k p1 d1).self.begin len,
             Call.open (_populateFilename p2 d2) fd, Call.fstat fd (some n),
             Call.mmap (n + 1) fd a, Call.close (-1)] ∧
      len = (m.mapFile noThrow k p1 d1).self.size + 1 ∧
      (m.mapFile noThrow k p1 d1).self.isMapped = true ∧
      ((m.mapFile noThrow k p1 d1).self.mapFile noThrow
            (m.mapFile noThrow k p1 d1).kernel p2 d2).self.isMapped = true ∧
      ((m.mapFile noThrow k p1 d1).self.mapFile noThrow
            (m.mapFile noThrow k p1 d1).kernel p2 d2).self.filename = _populateFilename p2 d2 ∧
      ((m.mapFile noThrow k p1 d1).self.mapFile noThrow
            (m.mapFile noThrow k p1 d1).kernel p2 d2).self.begin = a ∧
      ((m.mapFile noThrow k p1 d1).self.mapFile noThrow
            (m.mapFile noThrow k p1 d1).kernel p2 d2).self.end = a + n ∧
      ((m.mapFile noThrow k p1 d1).self.mapFile noThrow
            (m.mapFile noThrow k p1 d1).kernel p2 d2).self.size = n := by
  obtain ⟨fd1, n1, a1, -, hself1, -, ha1, hal1, -⟩ := mapFile_true noThrow k m p1 d1 h1
  have hmapped : (m.mapFile noThrow k p1 d1).self.isMapped = true := by
    rw [hself1]
    simp [MMappedFile.isMapped]
    omega
  obtain ⟨fd, n, a, hcalls, hself, hn, ha, hal, -⟩ :=
    mapFile_true noThrow (m.mapFile noThrow k p1 d1).kernel (m.mapFile noThrow k p1 d1).self
      p2 d2 h2
  refine ⟨fd, n, a,
    (((m.mapFile noThrow k p1 d1).self.m_endPtr + WORD
        - (m.mapFile noThrow k p1 d1).self.m_basePtr) % WORD + 1) % WORD,
    ?_, ?_, hmapped, ?_, ?_, ?_, ?_, ?_⟩
  · rw [hcalls, unmapFile_calls, hmapped]
    simp only [if_true, List.append_assoc, List.singleton_append]
    rfl
  · rw [hself1]
    simp only [MMappedFile.size, MMappedFile.begin, MMappedFile.end]
    have e1 : a1 + n1 + WORD - a1 = n1 + WORD := by omega
    rw [e1, Nat.add_mod_right, Nat.mod_eq_of_lt (show n1 < WORD by omega)]
    exact Nat.mod_eq_of_lt (by omega)
  · rw [hself]; simp [MMappedFile.isMapped]; omega
  · rw [hself]; rfl
  · rw [hself]; rfl
  · rw [hself]; rfl
  · rw [hself]
    simp only [MMappedFile.size, MMappedFile.begin, MMappedFile.end]
    have : a + n + WORD - a = n + WORD := by omega
    rw [this, Nat.add_mod_right]
    exact Nat.mod_eq_of_lt (by omega)

/-! ## Claims -/

/-- Claim C1, evaluated on the code: `mapFile` passes its arguments to
`_populateFilename` in the order file name, directory name, so the file name
comes first.  `mapFile("f.txt", "/data")` hands `f.txt//data` to `open` and
stores it as `filename()`, `mapFile("f.txt", "/data/")` resolves
`f.txt//data/`, and with an empty base directory the resolved path is
`f.txt/`, not `f.txt`. -/
theorem mapFile_resolves_file_before_dir :
    (MMappedFile.mapFile true (Kernel.sample 4096 3 abcdefghij) {}
        "f.txt".toList "/data".toList).self.filename = "f.txt//data".toList ∧
    (MMappedFile.mapFile true (Kernel.sample 4096 3 abcdefghij) {}
        "f.txt".toList "/data".toList).kernel.calls.head?
      = some (Call.open "f.txt//data".toList 3) ∧
    (MMappedFile.mapFile true (Kernel.sample 4096 3 abcdefghij) {}
        "f.txt".toList "/data/".toList).self.filename = "f.txt//data/".toList ∧
    (MMappedFile.mapFile true (Kernel.sample 4096 3 abcdefghij) {}
        "f.txt".toList []).self.filename = "f.txt/".toList ∧
    (MMappedFile.mapFile true (Kernel.sample 4096 3 abcdefghij) {}
        "f.txt".toList []).kernel.calls.head? = some (Call.open "f.txt/".toList 3) := by
  decide

/-- Claim C2, evaluated on the code: when `open` succeeds with descriptor 0
on a ten-byte file that `mmap` would map, `mapFile` returns false, issues no
`fstat` or `mmap` call and stays unmapped with `size() = 0`; the same file
opened as descriptor 3 is mapped with `size() = 10`. -/
theorem mapFile_descriptor_zero_rejected :
    (MMappedFile.mapFile true (Kernel.sample 4096 0 abcdefghij) {}
        "f.txt".toList []).result = .returned false ∧
    (MMappedFile.mapFile true (Kernel.sample 4096 0 abcdefghij) {}
        "f.txt".toList []).kernel.calls = [Call.open "f.txt/".toList 0] ∧
    (MMappedFile.mapFile true (Kernel.sample 4096 0 abcdefghij) {}
        "f.txt".toList []).self.isMapped = false ∧
    (MMappedFile.mapFile true (Kernel.sample 4096 0 abcdefghij) {}
        "f.txt".toList []).self.size = 0 ∧
    (MMappedFile.mapFile true (Kernel.sample 4096 3 abcdefghij) {}
        "f.txt".toList []).result = .returned true ∧
    (MMappedFile.mapFile true (Kernel.sample 4096 3 abcdefghij) {}
        "f.txt".toList []).self.size = 10 := by
  decide

/-- Claim C3, evaluated on the code: with pages of 4096 bytes, a file of
exactly 4096 bytes is mapped (`mapFile` returns true, `size()` is 4096) and
the read of `begin()[size()]` faults: the byte after the file lies in a
whole page past the end of the file.  A file of 10 bytes on the same pages
does have the zero byte at `begin()[size()]`. -/
theorem terminator_faults_on_page_multiple :
    (MMappedFile.mapFile true (Kernel.sample 4096 3 (List.replicate 4096 65)) {}
        "f.txt".toList []).result = .returned true ∧
    (MMappedFile.mapFile true (Kernel.sample 4096 3 (List.replicate 4096 65)) {}
        "f.txt".toList []).self.size = 4096 ∧
    (MMappedFile.mapFile true (Kernel.sample 4096 3 (List.replicate 4096 65)) {}
        "f.txt".toList []).self.at
      (MMappedFile.mapFile true (Kernel.sample 4096 3 (List.replicate 4096 65)) {}
        "f.txt".toList []).kernel
      (MMappedFile.mapFile true (Kernel.sample 4096 3 (List.replicate 4096 65)) {}
        "f.txt".toList []).self.size = none ∧
    (MMappedFile.mapFile true (Kernel.sample 4096 3 abcdefghij) {} "f.txt".toList []).self.at
      (MMappedFile.mapFile true (Kernel.sample 4096 3 abcdefghij) {} "f.txt".toList []).kernel
      10 = some 0 := by
  have hlen : (List.replicate 4096 65).length = 4096 := List.length_replicate _ _
  obtain ⟨hres, hsize⟩ := sample_maps 4096 3 (List.replicate 4096 65) "f.txt".toList []
    (by decide) (by rw [hlen]; decide) (by rw [hlen]; decide)
  rw [hlen] at hsize
  refine ⟨hres, hsize, ?_, by decide⟩
  apply at_size_faults _ _ _ _ _ hres
  · decide
  · rw [hsize]; rfl

/-- Claim C4: in the non-raising configuration, from every prior state (an
unmapped instance has both pointers null; a mapped one is arbitrary) and for
every failure cause (the resolved path cannot be opened, the file it names
is empty, or the kernel refuses every mapping), `mapFile` returns false and
leaves the instance unmapped with `size() = 0`; for an empty file the run
issues no `mmap` call. -/
theorem mapFile_failure_leaves_unmapped (k : Kernel) (m : MMappedFile) (p d : filename_str_t)
    (hm : m.isMapped = false → m.m_endPtr = 0)
    (hcause : (∀ t, k.openRet t (_populateFilename p d) = none) ∨
              (∀ t fd c, k.openRet t (_populateFilename p d) = some (fd, c) → c = []) ∨
              (∀ t len fd, k.mmapRet t len fd = none)) :
    (m.mapFile true k p d).result = .returned false ∧
    (m.mapFile true k p d).self.isMapped = false ∧
    (m.mapFile true k p d).self.size = 0 ∧
    ((∀ t fd c, k.openRet t (_populateFilename p d) = some (fd, c) → c = []) →
      ∀ c ∈ (m.mapFile true k p d).kernel.calls.drop k.calls.length, c.isMmap = false) := by
  have hcause2 : (∀ t fd c, k.openRet t (_populateFilename p d) = some (fd, c) → c = []) ∨
      (∀ t len fd, k.mmapRet t len fd = none) := by
    rcases hcause with h1 | h2 | h3
    · exact Or.inl (fun t fd c h => by rw [h1 t] at h; cases h)
    · exact Or.inl h2
    · exact Or.inr h3
  clear hcause
  have e := mapFile_eq true k m p d
  obtain ⟨b, hb⟩ := unmapFile_noThrow k m
  have hbase := unmapFile_base true k m
  have hend := unmapFile_end true k m hm
  have huc := unmapFile_calls true k m
  obtain ⟨huo, hum, -⟩ := unmapFile_oracles true k m
  generalize m.mapFile true k p d = r at e ⊢
  generalize m.unmapFile true k = u at e hb hbase hend huc huo hum
  generalize _populateFilename p d = q at e hcause2 ⊢
  have hoc := sys_open_calls u.kernel q
  have hocase := sys_open_cases u.kernel q
  obtain ⟨-, -, hom, -, -⟩ := sys_open_oracles u.kernel q
  have hsn : (sys_open u.kernel q).2 = -1 →
      (sys_fstat (sys_open u.kernel q).1 (sys_open u.kernel q).2).2 = none := by
    intro h; rw [h]; exact sys_fstat_neg _
  have hsf := sys_fstat_file (sys_open u.kernel q).1 (sys_open u.kernel q).2
  have hsc := sys_fstat_calls (sys_open u.kernel q).1 (sys_open u.kernel q).2
  obtain ⟨-, -, hsm, -, -, -⟩ := sys_fstat_oracles (sys_open u.kernel q).1 (sys_open u.kernel q).2
  generalize sys_open u.kernel q = o at e hoc hocase hom hsn hsf hsc hsm
  generalize sys_fstat o.1 o.2 = s at e hsn hsf hsc hsm
  -- an empty file has size zero
  have hE : (∀ t fd c, k.openRet t q = some (fd, c) → c = []) → s.2 = none ∨ s.2 = some 0 := by
    intro h2
    rcases hocase with ⟨-, ho⟩ | ⟨fd, c, ho, hfd, hfile⟩
    · exact Or.inl (hsn ho)
    · rw [huo] at ho
      have hc := h2 _ fd c ho
      subst hc
      rw [← hfd] at hfile
      simpa using hsf [] hfile
  -- a kernel that refuses every mapping
  have hM : (∀ t len fd, k.mmapRet t len fd = none) → ∀ len, (sys_mmap s.1 len o.2).2 = MAP_FAILED := by
    intro h3 len
    apply sys_mmap_none
    rw [hsm, hom, hum]
    exact h3 _ _ _
  have hdrop : ∀ l, (u.kernel.calls ++ l).drop k.calls.length
      = (if m.isMapped then
            [Call.munmap m.m_basePtr (((m.m_endPtr + WORD - m.m_basePtr) % WORD + 1) % WORD)]
         else []) ++ l := by
    intro l
    rw [huc, List.append_assoc, List.drop_left]
  have hsize0 : ∀ f : filename_str_t,
      MMappedFile.size { m_filename := f, m_basePtr := u.self.m_basePtr, m_endPtr := u.self.m_endPtr } = 0 := by
    intro f
    simp [MMappedFile.size, MMappedFile.begin, MMappedFile.end, hbase, hend]
  have hmap0 : ∀ f : filename_str_t,
      MMappedFile.isMapped { m_filename := f, m_basePtr := u.self.m_basePtr, m_endPtr := u.self.m_endPtr } = false := by
    intro f
    simp [MMappedFile.isMapped, hbase]
  subst e
  simp only [hb]
  by_cases hv : o.2 = 0
  · simp only [hv, if_true, hsize0, hmap0, true_and]
    intro _ c hc
    rw [hoc, hdrop] at hc
    split at hc <;> simp at hc <;> rcases hc with rfl | rfl <;> rfl
  · simp only [hv, if_false]
    cases hs2 : s.2 with
    | none =>
      simp only [if_true, hsize0, hmap0, true_and]
      intro _ c hc
      rw [sys_close_calls, hsc, hoc, List.append_assoc, List.append_assoc, hdrop] at hc
      split at hc <;> simp at hc <;> rcases hc with rfl | rfl | rfl | rfl <;> rfl
    | some n =>
      simp only
      by_cases hn : n % WORD = 0
      · simp only [hn, if_true, hsize0, hmap0, true_and]
        intro _ c hc
        rw [sys_close_calls, hsc, hoc, List.append_assoc, List.append_assoc, hdrop] at hc
        split at hc <;> simp at hc <;> rcases hc with rfl | rfl | rfl | rfl <;> rfl
      · have hne : ¬ (∀ t fd c, k.openRet t q = some (fd, c) → c = []) := by
          intro h2
          rcases hE h2 with h | h <;> rw [hs2] at h
          · cases h
          · simp only [Option.some.injEq] at h
            subst h
            exact hn rfl
        have h3 : ∀ t len fd, k.mmapRet t len fd = none := by
          rcases hcause2 with h | h
          · exact absurd h hne
          · exact h
        simp only [hn, if_false, hM h3, if_true, hsize0, hmap0, true_and]
        intro h2
        exact absurd h2 hne

/-- Witness for claim C4: a mapped instance asked to map a path that does
not exist. -/
theorem mapFile_failure_leaves_unmapped_witness :
    (MMappedFile.isMapped { m_filename := "a/".toList, m_basePtr := 12288, m_endPtr := 12298 } = true) ∧
    (∀ t, Kernel.noFiles.openRet t (_populateFilename "f.txt".toList []) = none) ∧
    (MMappedFile.mapFile true Kernel.noFiles
        { m_filename := "a/".toList, m_basePtr := 12288, m_endPtr := 12298 }
        "f.txt".toList []).result = .returned false ∧
    (MMappedFile.mapFile true Kernel.noFiles
        { m_filename := "a/".toList, m_basePtr := 12288, m_endPtr := 12298 }
        "f.txt".toList []).self.isMapped = false ∧
    (MMappedFile.mapFile true Kernel.noFiles
        { m_filename := "a/".toList, m_basePtr := 12288, m_endPtr := 12298 }
        "f.txt".toList []).self.size = 0 ∧
    ((∀ t fd c, Kernel.noFiles.openRet t (_populateFilename "f.txt".toList []) = some (fd, c) →
        c = []) →
      ∀ c ∈ (MMappedFile.mapFile true Kernel.noFiles
        { m_filename := "a/".toList, m_basePtr := 12288, m_endPtr := 12298 }
        "f.txt".toList []).kernel.calls.drop Kernel.noFiles.calls.length, c.isMmap = false) :=
  ⟨by decide, fun _ => rfl,
   mapFile_failure_leaves_unmapped Kernel.noFiles
    { m_filename := "a/".toList, m_basePtr := 12288, m_endPtr := 12298 } "f.txt".toList []
    (by decide) (Or.inl (fun _ => rfl))⟩

/-- Claim C5, evaluated on the code: a successful `mapFile` whose `open`
returned descriptor 3 issues `open`, `fstat`, `mmap` and then `close(-1)`;
no `close(3)` is issued and descriptor 3 is still open when `mapFile`
returns.  The same holds on the failure path of an empty file. -/
theorem mapFile_leaves_descriptor_open :
    (MMappedFile.mapFile true (Kernel.sample 4096 3 abcdefghij) {}
        "f.txt".toList []).kernel.calls
      = [Call.open "f.txt/".toList 3, Call.fstat 3 (some 10), Call.mmap 11 3 12288,
         Call.close (-1)] ∧
    Call.close 3 ∉ (MMappedFile.mapFile true (Kernel.sample 4096 3 abcdefghij) {}
        "f.txt".toList []).kernel.calls ∧
    (MMappedFile.mapFile true (Kernel.sample 4096 3 abcdefghij) {}
        "f.txt".toList []).kernel.file 3 = some abcdefghij ∧
    (MMappedFile.mapFile true (Kernel.sample 4096 3 []) {} "f.txt".toList []).result
      = .returned false ∧
    (MMappedFile.mapFile true (Kernel.sample 4096 3 []) {} "f.txt".toList []).kernel.calls
      = [Call.open "f.txt/".toList 3, Call.fstat 3 (some 0), Call.close (-1)] ∧
    (MMappedFile.mapFile true (Kernel.sample 4096 3 []) {} "f.txt".toList []).kernel.file 3
      = some [] := by
  decide

/-- Claim C6, evaluated on the code: `close()` on a handle that owns the
open descriptor 3 issues the call `close(-1)`, not `close(3)`; the stored
value becomes the invalid sentinel and descriptor 3 stays open. -/
theorem close_closes_the_sentinel :
    (FileHandle.ofFilename (Kernel.sample 4096 3 abcdefghij) "f.txt".toList).2.m_fd = 3 ∧
    (FileHandle.close true (FileHandle.ofFilename (Kernel.sample 4096 3 abcdefghij)
        "f.txt".toList).1 { m_fd := 3 }).1.calls
      = [Call.open "f.txt".toList 3, Call.close (-1)] ∧
    (FileHandle.close true (FileHandle.ofFilename (Kernel.sample 4096 3 abcdefghij)
        "f.txt".toList).1 { m_fd := 3 }).2.1.m_fd = INVALID_HANDLE_VALUE ∧
    (FileHandle.close true (FileHandle.ofFilename (Kernel.sample 4096 3 abcdefghij)
        "f.txt".toList).1 { m_fd := 3 }).1.file 3 = some abcdefghij := by
  decide

/-- Claim C7, evaluated on the code: `isValid()` is true for the invalid
sentinel `-1`, also on the handle of a failed `open`, and false for a handle
that holds descriptor 0; it tests the stored value against 0. -/
theorem isValid_tests_against_zero :
    FileHandle.isValid { m_fd := INVALID_HANDLE_VALUE } = true ∧
    (FileHandle.ofFilename Kernel.noFiles "f.txt".toList).2.m_fd = INVALID_HANDLE_VALUE ∧
    (FileHandle.ofFilename Kernel.noFiles "f.txt".toList).2.isValid = true ∧
    (FileHandle.ofFilename (Kernel.sample 4096 0 abcdefghij) "f.txt".toList).2.m_fd = 0 ∧
    (FileHandle.ofFilename (Kernel.sample 4096 0 abcdefghij) "f.txt".toList).2.isValid = false ∧
    (∀ h : FileHandle, h.isValid = true ↔ h.m_fd ≠ 0) := by
  refine ⟨by decide, by decide, by decide, by decide, by decide, ?_⟩
  intro h
  simp [FileHandle.isValid]

/-- Claim C8, evaluated on the code: after move-constructing from a mapped
instance the source still reports `isMapped()` true and `size()` 10 with the
same base pointer as the destination; destroying the source issues
`munmap` on that base pointer, after which the destination reads fault. -/
theorem move_leaves_source_mapped :
    ((MMappedFile.mapFile true (Kernel.sample 4096 3 abcdefghij) {}
        "f.txt".toList []).self.moveCtor).2.isMapped = true ∧
    ((MMappedFile.mapFile true (Kernel.sample 4096 3 abcdefghij) {}
        "f.txt".toList []).self.moveCtor).2.size = 10 ∧
    ((MMappedFile.mapFile true (Kernel.sample 4096 3 abcdefghij) {}
        "f.txt".toList []).self.moveCtor).1.begin = 12288 ∧
    ((MMappedFile.mapFile true (Kernel.sample 4096 3 abcdefghij) {}
        "f.txt".toList []).self.moveCtor).2.begin = 12288 ∧
    ((MMappedFile.mapFile true (Kernel.sample 4096 3 abcdefghij) {}
        "f.txt".toList []).self.moveCtor).1.at
      (MMappedFile.mapFile true (Kernel.sample 4096 3 abcdefghij) {}
        "f.txt".toList []).kernel 0 = some 97 ∧
    (((MMappedFile.mapFile true (Kernel.sample 4096 3 abcdefghij) {}
        "f.txt".toList []).self.moveCtor).2.dtor true
      (MMappedFile.mapFile true (Kernel.sample 4096 3 abcdefghij) {}
        "f.txt".toList []).kernel).1.calls.getLast? = some (Call.munmap 12288 11) ∧
    ((MMappedFile.mapFile true (Kernel.sample 4096 3 abcdefghij) {}
        "f.txt".toList []).self.moveCtor).1.at
      (((MMappedFile.mapFile true (Kernel.sample 4096 3 abcdefghij) {}
        "f.txt".toList []).self.moveCtor).2.dtor true
      (MMappedFile.mapFile true (Kernel.sample 4096 3 abcdefghij) {}
        "f.txt".toList []).kernel).1 0 = none := by
  decide

/-- Claim C9, evaluated on the code: move-constructing or move-assigning
from a handle that holds descriptor 3 gives the destination 3 and leaves 3
in the source as well, so both objects hold the same valid handle value. -/
theorem move_leaves_source_handle :
    (FileHandle.moveCtor { m_fd := 3 }).1.m_fd = 3 ∧
    (FileHandle.moveCtor { m_fd := 3 }).2.m_fd = 3 ∧
    (FileHandle.moveCtor { m_fd := 3 }).2.m_fd ≠ INVALID_HANDLE_VALUE ∧
    (FileHandle.moveAssign { m_fd := 7 } { m_fd := 3 }).1.m_fd = 3 ∧
    (FileHandle.moveAssign { m_fd := 7 } { m_fd := 3 }).2.m_fd = 3 ∧
    (FileHandle.moveAssign { m_fd := 7 } { m_fd := 3 }).2.isValid = true := by
  decide
/-- Claim C10, evaluated on the code: `mapFile("a.txt", "/data")` and then
`mapFile("b.txt", "/data")` on the same instance both return true on a file
system where `a.txt/data` and `b.txt/data` exist.  The second run does
release the first mapping with one `munmap` on the first base pointer before
its own `mmap`, and `begin()`, `end()` and `size()` are those of the second
file; but `filename()` is `b.txt//data`, not the resolved path
`/data/b.txt`, which is never handed to `open`.  With the base directory
left out, `mapFile("a.txt")` and then `mapFile("b.txt")` leave `filename()`
as `b.txt/`, not `b.txt`. -/
theorem mapFile_twice_filename_not_resolved :
    (MMappedFile.mapFile true Kernel.dataDirs {} "a.txt".toList "/data".toList).result
      = .returned true ∧
    (MMappedFile.mapFile true Kernel.dataDirs {} "a.txt".toList "/data".toList).self
      = { m_filename := "a.txt//data".toList, m_basePtr := 12288, m_endPtr := 12298 } ∧
    (MMappedFile.mapFile true
        (MMappedFile.mapFile true Kernel.dataDirs {} "a.txt".toList "/data".toList).kernel
        (MMappedFile.mapFile true Kernel.dataDirs {} "a.txt".toList "/data".toList).self
        "b.txt".toList "/data".toList).result = .returned true ∧
    (MMappedFile.mapFile true
        (MMappedFile.mapFile true Kernel.dataDirs {} "a.txt".toList "/data".toList).kernel
        (MMappedFile.mapFile true Kernel.dataDirs {} "a.txt".toList "/data".toList).self
        "b.txt".toList "/data".toList).kernel.calls
      = [Call.open "a.txt//data".toList 3, Call.fstat 3 (some 10), Call.mmap 11 3 12288,
         Call.close (-1), Call.munmap 12288 11,
         Call.open "b.txt//data".toList 4, Call.fstat 4 (some 3), Call.mmap 4 4 32768,
         Call.close (-1)] ∧
    (MMappedFile.mapFile true
        (MMappedFile.mapFile true Kernel.dataDirs {} "a.txt".toList "/data".toList).kernel
        (MMappedFile.mapFile true Kernel.dataDirs {} "a.txt".toList "/data".toList).self
        "b.txt".toList "/data".toList).self
      = { m_filename := "b.txt//data".toList, m_basePtr := 32768, m_endPtr := 32771 } ∧
    (MMappedFile.mapFile true
        (MMappedFile.mapFile true Kernel.dataDirs {} "a.txt".toList "/data".toList).kernel
        (MMappedFile.mapFile true Kernel.dataDirs {} "a.txt".toList "/data".toList).self
        "b.txt".toList "/data".toList).self.size = 3 ∧
    (MMappedFile.mapFile true
        (MMappedFile.mapFile true Kernel.dataDirs {} "a.txt".toList "/data".toList).kernel
        (MMappedFile.mapFile true Kernel.dataDirs {} "a.txt".toList "/data".toList).self
        "b.txt".toList "/data".toList).self.filename ≠ "/data/b.txt".toList ∧
    (∀ ret, Call.open "/data/b.txt".toList ret ∉
      (MMappedFile.mapFile true
        (MMappedFile.mapFile true Kernel.dataDirs {} "a.txt".toList "/data".toList).kernel
        (MMappedFile.mapFile true Kernel.dataDirs {} "a.txt".toList "/data".toList).self
        "b.txt".toList "/data".toList).kernel.calls) ∧
    (MMappedFile.mapFile true
        (MMappedFile.mapFile true (Kernel.sample 4096 3 abcdefghij) {} "a.txt".toList []).kernel
        (MMappedFile.mapFile true (Kernel.sample 4096 3 abcdefghij) {} "a.txt".toList []).self
        "b.txt".toList []).result = .returned true ∧
    (MMappedFile.mapFile true
        (MMappedFile.mapFile true (Kernel.sample 4096 3 abcdefghij) {} "a.txt".toList []).kernel
        (MMappedFile.mapFile true (Kernel.sample 4096 3 abcdefghij) {} "a.txt".toList []).self
        "b.txt".toList []).self.filename = "b.txt/".toList := by
  refine ⟨by decide, by decide, by decide, by decide, by decide, by decide, by decide, ?_,
    by decide, by decide⟩
  intro ret hmem
  have hcalls : (MMappedFile.mapFile true
        (MMappedFile.mapFile true Kernel.dataDirs {} "a.txt".toList "/data".toList).kernel
        (MMappedFile.mapFile true Kernel.dataDirs {} "a.txt".toList "/data".toList).self
        "b.txt".toList "/data".toList).kernel.calls
      = [Call.open "a.txt//data".toList 3, Call.fstat 3 (some 10), Call.mmap 11 3 12288,
         Call.close (-1), Call.munmap 12288 11,
         Call.open "b.txt//data".toList 4, Call.fstat 4 (some 3), Call.mmap 4 4 32768,
         Call.close (-1)] := by decide
  rw [hcalls] at hmem
  simp at hmem

/-- Claim C11: on the instance a successful `mapFile` produced for a file of
`n` bytes, `unmapFile` issues exactly one system call, `munmap` on the base
pointer with length `end - base + 1`, which is the `n + 1` bytes requested by
the `mmap` call of that `mapFile`; it clears the path and both pointers and
returns true.  On an unmapped instance in the non-raising configuration it
issues no call, changes nothing and returns false. -/
theorem unmapFile_releases_what_was_mapped (noThrow : Bool) (k : Kernel) (m : MMappedFile)
    (p d : filename_str_t) (k0 : Kernel) (m0 : MMappedFile)
    (h : (m.mapFile noThrow k p d).result = .returned true)
    (h0 : m0.isMapped = false) :
    (∃ (fd : Int) (n a : Nat),
      (m.mapFile noThrow k p d).kernel.calls
        = (m.unmapFile noThrow k).kernel.calls ++
            [Call.open (_populateFilename p d) fd, Call.fstat fd (some n),
             Call.mmap (n + 1) fd a, Call.close (-1)] ∧
      (m.mapFile noThrow k p d).self.begin = a ∧
      (m.mapFile noThrow k p d).self.size = n ∧
      (m.mapFile noThrow k p d).self.end - (m.mapFile noThrow k p d).self.begin + 1 = n + 1 ∧
      ((m.mapFile noThrow k p d).self.unmapFile noThrow
          (m.mapFile noThrow k p d).kernel).kernel.calls
        = (m.mapFile noThrow k p d).kernel.calls ++ [Call.munmap a (n + 1)] ∧
      ((m.mapFile noThrow k p d).self.unmapFile noThrow
          (m.mapFile noThrow k p d).kernel).self
        = { m_filename := [], m_basePtr := 0, m_endPtr := 0 } ∧
      ((m.mapFile noThrow k p d).self.unmapFile noThrow
          (m.mapFile noThrow k p d).kernel).result = .returned true) ∧
    ((m0.unmapFile true k0).kernel = k0 ∧
      (m0.unmapFile true k0).self = m0 ∧
      (m0.unmapFile true k0).result = .returned false) := by
  constructor
  · obtain ⟨fd, n, a, hcalls, hself, hn, ha, hal, -⟩ := mapFile_true noThrow k m p d h
    have hmapped : (m.mapFile noThrow k p d).self.isMapped = true := by
      rw [hself]; simp [MMappedFile.isMapped]; omega
    obtain ⟨hk, hs, hr⟩ := unmapFile_mapped noThrow (m.mapFile noThrow k p d).kernel
      (m.mapFile noThrow k p d).self hmapped
    have e1 : a + n + WORD - a = n + WORD := by omega
    have e2 : (a + n + WORD - a) % WORD = n := by
      rw [e1, Nat.add_mod_right]; exact Nat.mod_eq_of_lt (by omega)
    have e3 : (n + 1) % WORD = n + 1 := Nat.mod_eq_of_lt (by omega)
    refine ⟨fd, n, a, hcalls, ?_, ?_, ?_, ?_, hs, hr⟩
    · rw [hself]; rfl
    · rw [hself]; exact e2
    · rw [hself]; simp only [MMappedFile.end, MMappedFile.begin]; omega
    · rw [hk, sys_munmap_calls, hself]
      simp only [e2, e3]
  · obtain ⟨hk, hs, hr⟩ := unmapFile_unmapped true k0 m0 h0
    rw [hk, hs, hr]
    exact ⟨rfl, rfl, rfl⟩

/-- Witness for claim C11: the ten-byte file mapped on a default-constructed
instance, and the default-constructed instance itself. -/
theorem unmapFile_releases_what_was_mapped_witness :
    (MMappedFile.mapFile true (Kernel.sample 4096 3 abcdefghij) {} "f.txt".toList []).result
      = .returned true ∧
    MMappedFile.isMapped {} = false ∧
    ((MMappedFile.mapFile true (Kernel.sample 4096 3 abcdefghij) {} "f.txt".toList []).self.unmapFile
        true
        (MMappedFile.mapFile true (Kernel.sample 4096 3 abcdefghij) {} "f.txt".toList []).kernel
      ).kernel.calls
      = [Call.open "f.txt/".toList 3, Call.fstat 3 (some 10), Call.mmap 11 3 12288,
         Call.close (-1), Call.munmap 12288 11] ∧
    (MMappedFile.unmapFile true Kernel.noFiles {}).result = .returned false :=
  ⟨by decide, by decide, by decide,
   (unmapFile_releases_what_was_mapped true (Kernel.sample 4096 3 abcdefghij) {}
      "f.txt".toList [] Kernel.noFiles {} (by decide) (by decide)).2.2.2⟩

/-- Claim C12, evaluated on the code: in the raising configuration the
destructor of a default-constructed `MMappedFile` runs `unmapFile()`, which
throws `logic_error("File is already unmapped.")` out of the `noexcept`
destructor; so does the destructor of an instance whose `mapFile` failed
(there `mapFile` itself already throws that error).  In the non-raising
configuration the same destructors return, and the destructor of a mapped
instance unmaps it. -/
theorem dtor_throws_when_unmapped :
    (MMappedFile.dtor false Kernel.noFiles {}).2
      = .thrown (.logic_error "File is already unmapped.") ∧
    (MMappedFile.mapFile false Kernel.noFiles {} "f.txt".toList []).result
      = .thrown (.logic_error "File is already unmapped.") ∧
    (MMappedFile.dtor false
        (MMappedFile.mapFile false Kernel.noFiles {} "f.txt".toList []).kernel
        (MMappedFile.mapFile false Kernel.noFiles {} "f.txt".toList []).self).2
      = .thrown (.logic_error "File is already unmapped.") ∧
    (MMappedFile.dtor true Kernel.noFiles {}).2 = .returned () ∧
    (MMappedFile.dtor true
        (MMappedFile.mapFile true Kernel.noFiles {} "f.txt".toList []).kernel
        (MMappedFile.mapFile true Kernel.noFiles {} "f.txt".toList []).self).2
      = .returned () ∧
    (MMappedFile.dtor true
        (MMappedFile.mapFile true (Kernel.sample 4096 3 abcdefghij) {} "f.txt".toList []).kernel
        (MMappedFile.mapFile true (Kernel.sample 4096 3 abcdefghij) {} "f.txt".toList []).self).2
      = .returned () ∧
    (MMappedFile.dtor true
        (MMappedFile.mapFile true (Kernel.sample 4096 3 abcdefghij) {} "f.txt".toList []).kernel
        (MMappedFile.mapFile true (Kernel.sample 4096 3 abcdefghij) {} "f.txt".toList []).self
      ).1.calls.getLast? = some (Call.munmap 12288 11) := by
  decide

/-- Claim C13: for every sequence of `mapFile` and `unmapFile` calls on a
default-constructed instance, under either error policy: `isMapped()` is
false as long as only `unmapFile` has been called (in particular before any
call); after a `mapFile` call `isMapped()` is true exactly when the call
returned true (so it is false when it returned false); after an `unmapFile`
call it is false. -/
theorem isMapped_tracks_calls (noThrow : Bool) (k : Kernel) (ops : List Op) (j : Nat)
    (filename_ dirname_ : filename_str_t) :
    (MMappedFile.run noThrow k {} (List.replicate j Op.unmapFile)).2.isMapped = false ∧
    ((MMappedFile.run noThrow k {} ops).2.mapFile noThrow
        (MMappedFile.run noThrow k {} ops).1 filename_ dirname_).self.isMapped
      = decide (((MMappedFile.run noThrow k {} ops).2.mapFile noThrow
          (MMappedFile.run noThrow k {} ops).1 filename_ dirname_).result = .returned true) ∧
    ((MMappedFile.run noThrow k {} ops).2.unmapFile noThrow
        (MMappedFile.run noThrow k {} ops).1).self.isMapped = false := by
  refine ⟨?_, mapFile_isMapped _ _ _ _ _, unmapFile_isMapped _ _ _⟩
  rw [run_unmapFile_only noThrow j k {} rfl]
  rfl

/-- Claim C14: every state reached from a default-constructed instance by
`mapFile` and `unmapFile` calls, under either error policy, has both pointers
null, or both pointers non-null with `end >= base`; `size()` is 0 whenever
the instance is not mapped, and `size()` is the plain difference
`end - base` with `base <= end`, so the subtraction does not wrap. -/
theorem pointers_stay_ordered (noThrow : Bool) (k : Kernel) (ops : List Op) :
    (((MMappedFile.run noThrow k {} ops).2.m_basePtr = 0 ∧
        (MMappedFile.run noThrow k {} ops).2.m_endPtr = 0) ∨
      ((MMappedFile.run noThrow k {} ops).2.m_basePtr ≠ 0 ∧
        (MMappedFile.run noThrow k {} ops).2.m_endPtr ≠ 0 ∧
        (MMappedFile.run noThrow k {} ops).2.m_basePtr
          ≤ (MMappedFile.run noThrow k {} ops).2.m_endPtr)) ∧
    ((MMappedFile.run noThrow k {} ops).2.isMapped = true ∨
      (MMappedFile.run noThrow k {} ops).2.size = 0) ∧
    (MMappedFile.run noThrow k {} ops).2.begin ≤ (MMappedFile.run noThrow k {} ops).2.end ∧
    (MMappedFile.run noThrow k {} ops).2.size
      = (MMappedFile.run noThrow k {} ops).2.end - (MMappedFile.run noThrow k {} ops).2.begin := by
  have h := run_pointers noThrow ops k {} (Or.inl ⟨rfl, rfl⟩)
  generalize (MMappedFile.run noThrow k {} ops).2 = s at h ⊢
  simp only [MMappedFile.isMapped, MMappedFile.size, MMappedFile.begin, MMappedFile.end]
  rcases h with ⟨hb, he⟩ | ⟨hb, hle, hlt⟩
  · rw [hb, he]
    simp
  · have e1 : s.m_endPtr + WORD - s.m_basePtr = (s.m_endPtr - s.m_basePtr) + WORD := by omega
    have e2 : (s.m_endPtr + WORD - s.m_basePtr) % WORD = s.m_endPtr - s.m_basePtr := by
      rw [e1, Nat.add_mod_right]; exact Nat.mod_eq_of_lt (by omega)
    refine ⟨Or.inr ⟨by omega, by omega, hle⟩, Or.inl ?_, hle, e2⟩
    simp
    omega

end KFS
